import Mathlib

/-!
Shallow embedding of three files of the uptime-kuma repository:

* `src/server/monitor-types/tailscale-ping.js` — the `TailscalePing`
  monitor type: `runTailscalePing` (process timeout computation) and
  `parseTailscaleOutput` (parsing the tailscale ping stdout into a
  heartbeat update or a thrown error);
* `src/server/model/heartbeat.js` — the `Heartbeat` model with its
  `toJSON` and `toPublicJSON` serialization views;
* the server class file — `getClientIP` and `getTimezone`.

JavaScript strings are Lean `String`s; thrown `Error`s are explicit
outcome constructors; the JavaScript `TypeError` that arises from
indexing past the end of a `split` result is a distinct `crash` outcome.
-/

/-! ## String helpers mirroring the JavaScript string operations used -/

/-- `needle.isPrefixOf`-based scan: does `hay` contain `needle` as a
contiguous substring?  Mirrors JavaScript `hay.includes(needle)`. -/
def hasSubstrAux (needle : List Char) : List Char → Bool
  | [] => needle.isEmpty
  | c :: tl => needle.isPrefixOf (c :: tl) || hasSubstrAux needle tl

/-- JavaScript `hay.includes(needle)`. -/
def jsIncludes (hay needle : String) : Bool :=
  hasSubstrAux needle.data hay.data

/-- The suffix of `hay` after the first (leftmost) occurrence of
`needle`; `none` when `needle` does not occur.  Used to model
`line.split(" in ")[1]`: the JavaScript expression is `undefined`
exactly when this is `none`. -/
def dropAfterFirst (needle : List Char) : List Char → Option (List Char)
  | [] => if needle.isEmpty then some [] else none
  | c :: tl =>
    if needle.isPrefixOf (c :: tl) then some ((c :: tl).drop needle.length)
    else dropAfterFirst needle tl

/-- Drop leading and trailing whitespace: JavaScript
`String.prototype.trim` on the ASCII inputs at stake. -/
def trimChars (l : List Char) : List Char :=
  (((l.dropWhile Char.isWhitespace).reverse).dropWhile Char.isWhitespace).reverse

/-- JavaScript `s.trim()`. -/
def jsTrim (s : String) : String :=
  String.mk (trimChars s.data)

/-- Split on a single separator character, JavaScript
`s.split(sep)`-style: the result always has one more part than there
are separator occurrences, so `[]` input yields `[[]]`. -/
def splitChar (sep : Char) : List Char → List (List Char)
  | [] => [[]]
  | c :: tl =>
    if c = sep then [] :: splitChar sep tl
    else
      match splitChar sep tl with
      | [] => [[c]]
      | h :: t => (c :: h) :: t

/-- JavaScript `s.split(sep)` for a one-character separator. -/
def jsSplitChar (s : String) (sep : Char) : List String :=
  (splitChar sep s.data).map String.mk

/-- JavaScript `parseInt(s)` restricted to its base-10 behaviour on the
tokens this code feeds it: skip leading/trailing-irrelevant whitespace,
an optional sign, then the maximal run of leading decimal digits;
`none` models `NaN` (no digit found). -/
def jsParseInt (s : String) : Option Int :=
  let t := jsTrim s
  let signDigits : Int × List Char :=
    match t.data with
    | '-' :: rest => (-1, rest)
    | '+' :: rest => (1, rest)
    | l => (1, l)
  let ds := signDigits.2.takeWhile (fun c => c.isDigit)
  if ds.isEmpty then none
  else some (signDigits.1 * Int.ofNat (ds.foldl (fun acc c => acc * 10 + (c.toNat - '0'.toNat)) 0))

/-! ## Heartbeat model (`src/server/model/heartbeat.js`) -/

/-- Status constants documented in `heartbeat.js`:
`0 = DOWN, 1 = UP, 2 = PENDING, 3 = MAINTENANCE`. -/
def DOWN : Int := 0

/-- `UP` status constant (`1`), imported from `src/util` by the checker. -/
def UP : Int := 1

/-- The heartbeat bean: the fields read by `toJSON`/`toPublicJSON` and
written by `parseTailscaleOutput`.  `ping` is `Option Int`, `none`
standing for JavaScript `NaN` (the result of `parseInt` on a
non-numeric token). -/
structure Heartbeat where
  monitor_id : Int
  status : Int
  time : String
  msg : String
  ping : Option Int
  important : Bool
  duration : Int
deriving DecidableEq, Repr

/-- A JavaScript value appearing in the serialized heartbeat objects. -/
inductive JSValue where
  | num (n : Int)
  | str (s : String)
  | bool (b : Bool)
  | nan
deriving DecidableEq, Repr

/-- Injection of the `ping` field into a JavaScript value. -/
def jsOfPing : Option Int → JSValue
  | some n => .num n
  | none => .nan

/-- `Heartbeat.toJSON`: the full serialization view, as an ordered
field-name/value object. -/
def Heartbeat.toJSON (h : Heartbeat) : List (String × JSValue) :=
  [ ("monitorID", .num h.monitor_id),
    ("status", .num h.status),
    ("time", .str h.time),
    ("msg", .str h.msg),
    ("ping", jsOfPing h.ping),
    ("important", .bool h.important),
    ("duration", .num h.duration) ]

/-- `Heartbeat.toPublicJSON`: the public serialization view — only
`status`, `time`, `msg` (forced to `""`) and `ping`. -/
def Heartbeat.toPublicJSON (h : Heartbeat) : List (String × JSValue) :=
  [ ("status", .num h.status),
    ("time", .str h.time),
    ("msg", .str ""),
    ("ping", jsOfPing h.ping) ]

/-- Replace the value of a `"msg"` field by `""`, leaving every other
field alone (the transformation the spec says `toPublicJSON` applies to
the full view). -/
def maskMsg (p : String × JSValue) : String × JSValue :=
  if p.1 = "msg" then (p.1, .str "") else p

/-! ## Tailscale ping checker (`src/server/monitor-types/tailscale-ping.js`) -/

/-- The timeout handed to `exec` by `runTailscalePing`:
`interval * 1000 * 0.8` milliseconds, `interval` in seconds.  Over `ℚ`
this is exact; for the intervals at stake the IEEE-754 product is exact
as well. -/
def runTailscalePingTimeout (interval : ℚ) : ℚ :=
  interval * 1000 * 0.8

/-- The errors `parseTailscaleOutput` can throw, each carrying the line
that triggered it (the thrown message interpolates that line). -/
inductive TailscaleFailure where
  | timeout (line : String)
  | peerUnreachable (line : String)
  | selfTargetInvalid (line : String)
  | unexpectedOutput (line : String)
deriving DecidableEq, Repr

/-- The observable outcome of `parseTailscaleOutput`, with the heartbeat
state threaded through: a normal return, a thrown `Error`, or the
JavaScript `TypeError` raised by `line.split(" in ")[1].split(" ")`
when `" in "` does not occur in the matched line (`crash`). -/
inductive ParseOutcome where
  | ok (hb : Heartbeat)
  | err (e : TailscaleFailure) (hb : Heartbeat)
  | crash (hb : Heartbeat)
deriving DecidableEq, Repr

/-- `line.split(" in ")[1].split(" ")[0]`: the token between the first
`" in "` and the following space.  Because `" in "` itself begins with a
space, taking the prefix of the whole suffix up to its first space is
the same as first cutting at the next `" in "`; `none` is the
`undefined`-index case. -/
def timeToken (line : String) : Option String :=
  (dropAfterFirst " in ".data line.data).map
    (fun l => String.mk (l.takeWhile (fun c => c ≠ ' ')))

/-- The `for (let line of lines)` loop of `parseTailscaleOutput`,
threading the heartbeat.  Branch order and the mutation order of the
success branch (`status` is set before the `" in "` extraction that can
crash) follow the source. -/
def parseLines (hb : Heartbeat) : List String → ParseOutcome
  | [] => .ok hb
  | line :: rest =>
    if jsIncludes line "pong from" then
      match timeToken line with
      | some t => .ok { hb with status := UP, ping := jsParseInt t, msg := line }
      | none => .crash { hb with status := UP }
    else if jsIncludes line "timed out" then .err (.timeout line) hb
    else if jsIncludes line "no matching peer" then .err (.peerUnreachable line) hb
    else if jsIncludes line "is local Tailscale IP" then .err (.selfTargetInvalid line) hb
    else if line ≠ "" then .err (.unexpectedOutput line) hb
    else parseLines hb rest

/-- `parseTailscaleOutput(tailscaleOutput, heartbeat)`: split the output
on newlines and run the loop. -/
def parseTailscaleOutput (tailscaleOutput : String) (hb : Heartbeat) : ParseOutcome :=
  parseLines hb (jsSplitChar tailscaleOutput '\n')

/-- A concrete heartbeat used to instantiate universally quantified
statements. -/
def sampleHeartbeat : Heartbeat :=
  { monitor_id := 7, status := DOWN, time := "2023-05-30 10:00:00",
    msg := "previous", ping := some 3, important := false, duration := 60 }

/-! ## `UptimeKumaServer.getClientIP` -/

/-- The parts of the socket that `getClientIP` reads.  `remoteAddress`
is `none` when the JavaScript value is `undefined`; a header is `none`
when absent (for `x-forwarded-for` the source additionally checks
`typeof === "string"`, so `none` also covers a non-string value). -/
structure SocketInfo where
  remoteAddress : Option String
  xForwardedFor : Option String
  xRealIp : Option String
deriving DecidableEq, Repr

/-- `clientIP.replace(/^::ffff:/, "")`: strip one leading
IPv4-mapped-IPv6 marker. -/
def stripMapped (s : String) : String :=
  if "::ffff:".data.isPrefixOf s.data then String.mk (s.data.drop 7) else s

/-- `typeof forwardedFor === "string" ? forwardedFor.split(",")[0].trim() : null`,
with `""` standing for the falsy `null` (both fall through `||` the
same way). -/
def fwdToken (sock : SocketInfo) : String :=
  match sock.xForwardedFor with
  | some s => jsTrim ((jsSplitChar s ',').headD "")
  | none => ""

/-- `UptimeKumaServer.getClientIP(socket)`, with the awaited
`trustProxy` setting passed as a boolean.  JavaScript `||` short-circuit
on falsy values (`null` and `""`) is made explicit; only the
`clientIP` fallback goes through the `::ffff:` replacement, exactly as
in the source. -/
def getClientIP (trustProxy : Bool) (sock : SocketInfo) : String :=
  let clientIP := sock.remoteAddress.getD ""
  if trustProxy then
    if fwdToken sock ≠ "" then fwdToken sock
    else
      match sock.xRealIp with
      | some r => if r ≠ "" then r else stripMapped clientIP
      | none => stripMapped clientIP
  else stripMapped clientIP

/-! ## `UptimeKumaServer.getTimezone` -/

/-- `UptimeKumaServer.getTimezone()`.  `valid tz` models
`checkTimezone(tz)` returning rather than throwing (dayjs formatting a
reference instant in that zone); `envTZ` is `process.env.TZ`, `settingTZ`
the awaited `serverTimezone` setting, `guessTZ` the result of
`dayjs.tz.guess()`; the empty string stands for any falsy value
(`undefined`, `null`, `""`), and a guess step that itself throws is the
same `"UTC"` fallback as a falsy or invalid guess. -/
def getTimezone (valid : String → Bool) (envTZ settingTZ guessTZ : String) : String :=
  if envTZ ≠ "" ∧ valid envTZ then envTZ
  else if settingTZ ≠ "" ∧ valid settingTZ then settingTZ
  else if guessTZ = "" then "UTC"
  else if valid guessTZ then guessTZ
  else "UTC"

/-! ## Helper lemmas -/

/-- A run of blank lines at the front of the output is skipped: none of
the four phrases occurs in `""` and the final non-blank guard fails, so
the loop just recurses. -/
theorem parseLines_skips_blanks (hb : Heartbeat) (pre rest : List String)
    (hpre : ∀ l ∈ pre, l = "") :
    parseLines hb (pre ++ rest) = parseLines hb rest := by
  induction pre with
  | nil => rfl
  | cons a tl ih =>
    have ha : a = "" := hpre a (List.mem_cons_self a tl)
    have htl : ∀ l ∈ tl, l = "" := fun l hl => hpre l (List.mem_cons_of_mem _ hl)
    subst ha
    have h1 : jsIncludes "" "pong from" = false := by decide
    have h2 : jsIncludes "" "timed out" = false := by decide
    have h3 : jsIncludes "" "no matching peer" = false := by decide
    have h4 : jsIncludes "" "is local Tailscale IP" = false := by decide
    rw [List.cons_append]
    rw [show parseLines hb ("" :: (tl ++ rest)) = parseLines hb (tl ++ rest) by
      simp [parseLines, h1, h2, h3, h4]]
    exact ih htl

/-- If the loop throws, the heartbeat it leaves behind is the one it was
given. -/
theorem parseLines_err_state (lines : List String) (hb hb' : Heartbeat)
    (e : TailscaleFailure) (h : parseLines hb lines = .err e hb') : hb' = hb := by
  induction lines with
  | nil => simp [parseLines] at h
  | cons line rest ih =>
    rw [show parseLines hb (line :: rest) =
        (if jsIncludes line "pong from" then
          match timeToken line with
          | some t => ParseOutcome.ok { hb with status := UP, ping := jsParseInt t, msg := line }
          | none => ParseOutcome.crash { hb with status := UP }
        else if jsIncludes line "timed out" then .err (.timeout line) hb
        else if jsIncludes line "no matching peer" then .err (.peerUnreachable line) hb
        else if jsIncludes line "is local Tailscale IP" then .err (.selfTargetInvalid line) hb
        else if line ≠ "" then .err (.unexpectedOutput line) hb
        else parseLines hb rest) from rfl] at h
    split at h
    · split at h <;> simp_all
    · split at h
      · exact (ParseOutcome.err.injEq _ _ _ _).mp h |>.2.symm
      · split at h
        · exact (ParseOutcome.err.injEq _ _ _ _).mp h |>.2.symm
        · split at h
          · exact (ParseOutcome.err.injEq _ _ _ _).mp h |>.2.symm
          · split at h
            · exact (ParseOutcome.err.injEq _ _ _ _).mp h |>.2.symm
            · exact ih h

/-- If the loop returns normally, either nothing happened to the
heartbeat or the success branch set its status to `UP`. -/
theorem parseLines_ok_state (lines : List String) (hb hb' : Heartbeat)
    (h : parseLines hb lines = .ok hb') : hb' = hb ∨ hb'.status = UP := by
  induction lines with
  | nil =>
    simp only [parseLines, ParseOutcome.ok.injEq] at h
    exact Or.inl h.symm
  | cons line rest ih =>
    rw [show parseLines hb (line :: rest) =
        (if jsIncludes line "pong from" then
          match timeToken line with
          | some t => ParseOutcome.ok { hb with status := UP, ping := jsParseInt t, msg := line }
          | none => ParseOutcome.crash { hb with status := UP }
        else if jsIncludes line "timed out" then .err (.timeout line) hb
        else if jsIncludes line "no matching peer" then .err (.peerUnreachable line) hb
        else if jsIncludes line "is local Tailscale IP" then .err (.selfTargetInvalid line) hb
        else if line ≠ "" then .err (.unexpectedOutput line) hb
        else parseLines hb rest) from rfl] at h
    split at h
    · split at h
      · refine Or.inr ?_
        have := (ParseOutcome.ok.injEq _ _).mp h
        subst this
        rfl
      · simp_all
    · split at h
      · simp_all
      · split at h
        · simp_all
        · split at h
          · simp_all
          · split at h
            · simp_all
            · exact ih h

/-! ## Claims -/

/-- C1: if the first non-blank line of the output contains `pong from`
(and its `" in "` extraction is defined, yielding token `t`), then
`parseTailscaleOutput` returns normally with `status` set to `UP`,
`ping` set to the integer parsed from `t` — the token between the first
`" in "` and the following space — and `msg` set to that whole line;
the equality does not depend on `post`, so every later line, including
lines that would otherwise throw, is ignored. -/
theorem pong_line_sets_up_and_stops (stdout : String) (hb : Heartbeat)
    (pre post : List String) (L t : String)
    (hsplit : jsSplitChar stdout '\n' = pre ++ L :: post)
    (hpre : ∀ l ∈ pre, l = "")
    (hpong : jsIncludes L "pong from" = true)
    (ht : timeToken L = some t) :
    parseTailscaleOutput stdout hb =
      .ok { hb with status := UP, ping := jsParseInt t, msg := L } := by
  unfold parseTailscaleOutput
  rw [hsplit, parseLines_skips_blanks hb pre _ hpre]
  simp [parseLines, hpong, ht]

/-- Witness for C1 at a concrete three-line output: a leading blank
line, a pong line with round-trip time `15ms`, and a trailing line that
would otherwise throw. -/
theorem pong_line_sets_up_and_stops_witness :
    parseTailscaleOutput
        "\npong from mynode (100.64.0.1) via DERP(fra) in 15ms\nunrecognized garbage"
        sampleHeartbeat =
      .ok { sampleHeartbeat with
            status := UP
            ping := some 15
            msg := "pong from mynode (100.64.0.1) via DERP(fra) in 15ms" } := by
  have h := pong_line_sets_up_and_stops
    "\npong from mynode (100.64.0.1) via DERP(fra) in 15ms\nunrecognized garbage"
    sampleHeartbeat [""] ["unrecognized garbage"]
    "pong from mynode (100.64.0.1) via DERP(fra) in 15ms" "15ms"
    (by decide) (by decide) (by decide) (by decide)
  rw [h]
  decide

/-- C2: the checker never produces a `DOWN` verdict itself and mutates
the heartbeat only in the success case: whenever `parseTailscaleOutput`
throws, the heartbeat it leaves is exactly the one supplied, and
whenever it returns normally the heartbeat is either untouched or has
`status = UP`. -/
theorem failure_leaves_heartbeat_untouched (stdout : String) (hb : Heartbeat) :
    (∀ (e : TailscaleFailure) (hb' : Heartbeat),
        parseTailscaleOutput stdout hb = .err e hb' → hb' = hb) ∧
    (∀ hb' : Heartbeat,
        parseTailscaleOutput stdout hb = .ok hb' → hb' = hb ∨ hb'.status = UP) :=
  ⟨fun e hb' h => parseLines_err_state _ hb hb' e h,
   fun hb' h => parseLines_ok_state _ hb hb' h⟩

/-- Witness for C2: at the concrete output `"x timed out"` the checker
throws a timeout failure and returns the supplied heartbeat unchanged. -/
theorem failure_leaves_heartbeat_untouched_witness :
    sampleHeartbeat = sampleHeartbeat ∧
      parseTailscaleOutput "x timed out" sampleHeartbeat =
        .err (.timeout "x timed out") sampleHeartbeat :=
  ⟨(failure_leaves_heartbeat_untouched "x timed out" sampleHeartbeat).1
      (.timeout "x timed out") sampleHeartbeat (by decide),
   by decide⟩

/-- C6: output consisting only of blank lines (the empty string
included) makes `parseTailscaleOutput` return normally with the
heartbeat exactly as the caller pre-set it. -/
theorem blank_only_output_no_mutation (stdout : String) (hb : Heartbeat)
    (h : ∀ l ∈ jsSplitChar stdout '\n', l = "") :
    parseTailscaleOutput stdout hb = .ok hb := by
  unfold parseTailscaleOutput
  rw [show jsSplitChar stdout '\n' = jsSplitChar stdout '\n' ++ [] from
    (List.append_nil _).symm]
  rw [parseLines_skips_blanks hb _ [] h]
  rfl

/-- Witness for C6 at the empty output and at an output of three blank
lines. -/
theorem blank_only_output_no_mutation_witness :
    parseTailscaleOutput "" sampleHeartbeat = .ok sampleHeartbeat ∧
      parseTailscaleOutput "\n\n" sampleHeartbeat = .ok sampleHeartbeat :=
  ⟨blank_only_output_no_mutation "" sampleHeartbeat (by decide),
   blank_only_output_no_mutation "\n\n" sampleHeartbeat (by decide)⟩

/-- C3: when every line before the first decisive (non-blank,
non-`pong from`) line is blank, that line is classified in the source's
branch order: `timed out` throws the timeout failure, otherwise
`no matching peer` throws peer-unreachable, otherwise the
local-Tailscale-IP phrase throws self-target-invalid, and any other
non-blank line throws unexpected-output carrying the line verbatim;
blank lines themselves never trigger any failure. -/
theorem error_taxonomy_first_decisive_line (stdout : String) (hb : Heartbeat)
    (pre post : List String) (L : String)
    (hsplit : jsSplitChar stdout '\n' = pre ++ L :: post)
    (hpre : ∀ l ∈ pre, l = "")
    (hpong : jsIncludes L "pong from" = false) :
    (jsIncludes L "timed out" = true →
        parseTailscaleOutput stdout hb = .err (.timeout L) hb) ∧
    (jsIncludes L "timed out" = false → jsIncludes L "no matching peer" = true →
        parseTailscaleOutput stdout hb = .err (.peerUnreachable L) hb) ∧
    (jsIncludes L "timed out" = false → jsIncludes L "no matching peer" = false →
        jsIncludes L "is local Tailscale IP" = true →
        parseTailscaleOutput stdout hb = .err (.selfTargetInvalid L) hb) ∧
    (jsIncludes L "timed out" = false → jsIncludes L "no matching peer" = false →
        jsIncludes L "is local Tailscale IP" = false → L ≠ "" →
        parseTailscaleOutput stdout hb = .err (.unexpectedOutput L) hb) := by
  unfold parseTailscaleOutput
  rw [hsplit, parseLines_skips_blanks hb pre _ hpre]
  refine ⟨fun h1 => ?_, fun h1 h2 => ?_, fun h1 h2 h3 => ?_, fun h1 h2 h3 h4 => ?_⟩ <;>
    simp [parseLines, hpong, h1, *]

/-- Witness for C3 at four concrete outputs, one per failure kind, with
blank lines preceding the decisive line in the first and last. -/
theorem error_taxonomy_first_decisive_line_witness :
    parseTailscaleOutput "\ntimed out waiting" sampleHeartbeat =
      .err (.timeout "timed out waiting") sampleHeartbeat ∧
    parseTailscaleOutput "no matching peer found" sampleHeartbeat =
      .err (.peerUnreachable "no matching peer found") sampleHeartbeat ∧
    parseTailscaleOutput "100.64.0.1 is local Tailscale IP" sampleHeartbeat =
      .err (.selfTargetInvalid "100.64.0.1 is local Tailscale IP") sampleHeartbeat ∧
    parseTailscaleOutput "\n\nsome diagnostic text" sampleHeartbeat =
      .err (.unexpectedOutput "some diagnostic text") sampleHeartbeat := by
  refine ⟨?_, ?_, ?_, ?_⟩
  · exact (error_taxonomy_first_decisive_line "\ntimed out waiting" sampleHeartbeat
      [""] [] "timed out waiting" (by decide) (by decide) (by decide)).1 (by decide)
  · exact (error_taxonomy_first_decisive_line "no matching peer found" sampleHeartbeat
      [] [] "no matching peer found" (by decide) (by decide) (by decide)).2.1
      (by decide) (by decide)
  · exact (error_taxonomy_first_decisive_line "100.64.0.1 is local Tailscale IP"
      sampleHeartbeat [] [] "100.64.0.1 is local Tailscale IP"
      (by decide) (by decide) (by decide)).2.2.1 (by decide) (by decide) (by decide)
  · exact (error_taxonomy_first_decisive_line "\n\nsome diagnostic text" sampleHeartbeat
      ["", ""] [] "some diagnostic text" (by decide) (by decide) (by decide)).2.2.2
      (by decide) (by decide) (by decide) (by decide)

/-- C10: the success branch is partial.  A line containing `pong from`
but no `" in "` substring makes the extraction index an `undefined`
value, so the checker crashes with a `TypeError` after having already
set `status := UP`; under the precondition that the matched line does
contain `" in "` (so the token exists), the branch completes with the
full `UP` update. -/
theorem success_branch_partiality :
    (parseTailscaleOutput "pong from mynode" sampleHeartbeat =
        .crash { sampleHeartbeat with status := UP }) ∧
    (∀ (line : String) (hb : Heartbeat),
        jsIncludes line "pong from" = true → timeToken line = none →
        parseLines hb [line] = .crash { hb with status := UP }) ∧
    (∀ (line t : String) (hb : Heartbeat),
        jsIncludes line "pong from" = true → timeToken line = some t →
        parseLines hb [line] =
          .ok { hb with status := UP, ping := jsParseInt t, msg := line }) := by
  refine ⟨by decide, fun line hb h1 h2 => ?_, fun line t hb h1 h2 => ?_⟩ <;>
    simp [parseLines, h1, h2]

/-- Witness for C10: a crashing pong line without `" in "` and a
completing pong line with it. -/
theorem success_branch_partiality_witness :
    parseLines sampleHeartbeat ["pong from peer direct"] =
      .crash { sampleHeartbeat with status := UP } ∧
    parseLines sampleHeartbeat ["pong from peer in 7ms"] =
      .ok { sampleHeartbeat with
            status := UP
            ping := jsParseInt "7ms"
            msg := "pong from peer in 7ms" } :=
  ⟨success_branch_partiality.2.1 "pong from peer direct" sampleHeartbeat
      (by decide) (by decide),
   success_branch_partiality.2.2 "pong from peer in 7ms" "7ms" sampleHeartbeat
      (by decide) (by decide)⟩

/-- C4 counterexample: the public view is not the full view with `msg`
masked — at a concrete heartbeat the two differ, because the public
view omits `monitorID`, `important` and `duration`. -/
theorem public_view_not_masked_full_view :
    ¬ (Heartbeat.toPublicJSON sampleHeartbeat =
        (Heartbeat.toJSON sampleHeartbeat).map maskMsg) := by decide

/-- C4 (amended): the public serialization view is the restriction of
the full view to the fields `status`, `time`, `msg`, `ping` (in the
full view's order), with `msg` forced to the empty string; the fields
`monitorID`, `important` and `duration` are omitted, not preserved. -/
theorem public_view_is_masked_restriction (h : Heartbeat) :
    Heartbeat.toPublicJSON h =
      ((Heartbeat.toJSON h).filter
        (fun p => p.1 == "status" || p.1 == "time" || p.1 == "msg" || p.1 == "ping")).map
        maskMsg := rfl

/-- C5: for every heartbeat, whatever message is stored, the public
view carries `msg = ""` while the full view carries the stored message
verbatim. -/
theorem public_msg_empty_full_msg_verbatim (h : Heartbeat) :
    (Heartbeat.toPublicJSON h).lookup "msg" = some (.str "") ∧
    (Heartbeat.toJSON h).lookup "msg" = some (.str h.msg) :=
  ⟨rfl, rfl⟩

/-- C7: the timeout handed to the child process is exactly
`interval * 1000 * 0.8` milliseconds, i.e. `800 · interval`; for an
interval of 10 seconds this is exactly 8000 ms. -/
theorem tailscale_timeout_formula :
    (∀ interval : ℚ, runTailscalePingTimeout interval = interval * 800) ∧
    runTailscalePingTimeout 10 = 8000 := by
  constructor
  · intro interval
    unfold runTailscalePingTimeout
    rw [show (0.8 : ℚ) = 4 / 5 by norm_num]
    ring
  · norm_num [runTailscalePingTimeout]

/-- C8: when the environment override is set but fails validation, the
failure is only logged and resolution falls through; with a set, valid
persisted setting the resolved timezone is the persisted one. -/
theorem env_invalid_uses_setting (valid : String → Bool)
    (envTZ settingTZ guessTZ : String)
    (henv : envTZ ≠ "") (hbad : valid envTZ = false)
    (hset : settingTZ ≠ "") (hok : valid settingTZ = true) :
    getTimezone valid envTZ settingTZ guessTZ = settingTZ := by
  simp [getTimezone, hbad, hset, hok]

/-- Witness for C8: an invalid environment override falls through to a
valid persisted setting. -/
theorem env_invalid_uses_setting_witness :
    getTimezone (fun s => s == "America/Denver") "Not/AZone" "America/Denver"
        "Etc/UTC" = "America/Denver" :=
  env_invalid_uses_setting _ _ _ _ (by decide) (by decide) (by decide) (by decide)

/-- C9 counterexample: with trust-proxy enabled and an
`x-forwarded-for` value carrying the IPv4-mapped-IPv6 marker, the
returned address keeps the `::ffff:` marker — the replacement is not
applied to header-derived values, refuting "stripped in all cases". -/
theorem forwarded_header_keeps_mapped_marker :
    getClientIP true
      { remoteAddress := some "::ffff:10.0.0.2",
        xForwardedFor := some "::ffff:203.0.113.9",
        xRealIp := none } = "::ffff:203.0.113.9" ∧
    stripMapped "::ffff:203.0.113.9" = "203.0.113.9" := by decide

/-- C9 (amended): `getClientIP` strips the `::ffff:` marker only from
the socket's own remote address — both with trust-proxy disabled and in
the trust-proxy fallback when no usable header value exists — while
values taken from `x-forwarded-for` or `x-real-ip` are returned
verbatim, without stripping. -/
theorem mapped_marker_stripped_only_from_socket_address (sock : SocketInfo) :
    (getClientIP false sock = stripMapped (sock.remoteAddress.getD "")) ∧
    (fwdToken sock ≠ "" → getClientIP true sock = fwdToken sock) ∧
    (∀ r : String, fwdToken sock = "" → sock.xRealIp = some r → r ≠ "" →
        getClientIP true sock = r) ∧
    (fwdToken sock = "" → (sock.xRealIp = none ∨ sock.xRealIp = some "") →
        getClientIP true sock = stripMapped (sock.remoteAddress.getD "")) := by
  refine ⟨rfl, fun h => ?_, fun r h1 h2 h3 => ?_, fun h1 h2 => ?_⟩
  · simp [getClientIP, h]
  · simp [getClientIP, h1, h2, h3]
  · rcases h2 with h2 | h2 <;> simp [getClientIP, h1, h2]

/-- Witness for the amended C9 at concrete sockets: stripping on the
direct path and on the trust-proxy fallback, verbatim returns from both
headers. -/
theorem mapped_marker_stripped_only_from_socket_address_witness :
    getClientIP false
      { remoteAddress := some "::ffff:9.9.9.9",
        xForwardedFor := none, xRealIp := none } = "9.9.9.9" ∧
    getClientIP true
      { remoteAddress := some "::ffff:9.9.9.9",
        xForwardedFor := some " 1.1.1.1, 2.2.2.2",
        xRealIp := none } = "1.1.1.1" ∧
    getClientIP true
      { remoteAddress := some "::ffff:9.9.9.9",
        xForwardedFor := none, xRealIp := some "8.8.8.8" } = "8.8.8.8" ∧
    getClientIP true
      { remoteAddress := some "::ffff:9.9.9.9",
        xForwardedFor := none, xRealIp := none } = "9.9.9.9" := by
  refine ⟨?_, ?_, ?_, ?_⟩
  · exact (mapped_marker_stripped_only_from_socket_address _).1.trans (by decide)
  · exact ((mapped_marker_stripped_only_from_socket_address _).2.1 (by decide)).trans
      (by decide)
  · exact (mapped_marker_stripped_only_from_socket_address _).2.2.1 "8.8.8.8"
      (by decide) (by decide) (by decide)
  · exact ((mapped_marker_stripped_only_from_socket_address _).2.2.2 (by decide)
      (Or.inl (by decide))).trans (by decide)
